import Mathlib

/-!
Formal model of the Flood Hapi extraction pipeline (`src/app.py`).

The pipeline geocodes a point, builds a square bounding box and a circular
search buffer of a given radius, downloads six remote vector layers with
bounded retry, explodes multi-part geometries into single-part records,
clips each layer to the buffer with a centroid fast path plus an exact
edge clip, derives three categorical risk-band layers by attribute
filtering of one pre-clipped source, and packages the results.

Embedding conventions:

* Coordinates are rationals (`ℚ`), standing in for the Python floats.
* The planar geometry engine (shapely) is modelled in one dimension:
  a single-part polygon is a closed interval `[lo, hi]`, a multi-part
  polygon is a list of such intervals, and the circular search buffer is
  the interval `[center - radius, center + radius]`.  This preserves every
  algebraic fact the pipeline relies on: centroids, strict interior
  containment (`prepared.contains` of a point), closed-set intersection
  tests, clipping as intersection, degenerate (zero-measure) clip results
  being non-polygonal and dropped, and the `prep`/raw distinction
  (`prep` shares the same geometry, so the prepared buffer is the buffer
  itself).
* `GeoDataFrame` is a column-name list plus an ordered row list of
  attribute/geometry records; `gdf.empty`, boolean-mask filtering,
  `explode`, and `pd.concat` become the evident list operations.
* Network and disk effects are parameters: each HTTP attempt of a layer
  download is an `Except` value supplied by an `attempts` function, and
  "writing a shapefile" is recorded as a file name in the job's file
  list (the model of the working directory that gets zipped).  The CRS
  reprojection steps, logging, timing, and the purely informational
  result fields (postcode coordinates, job name, timestamps) are not
  modelled.  `time.sleep` calls are recorded as a list of slept
  durations.
* The `try/except` wrapper of `_process_single_layer` only fires on
  geometry-engine exceptions, which the pure model cannot raise; its
  `error` field is therefore always `none` here, while the fetch-failure
  handling (`future.result()` raising) is modelled faithfully.
-/

namespace FloodHapi

/-- The circular search buffer (`Point(e, n).buffer(radius)`), in the
one-dimensional geometry model: the interval `[lo, hi]`. -/
structure Buf where
  lo : ℚ
  hi : ℚ
  deriving DecidableEq

/-- A shapely geometry as the pipeline sees it: a single-part polygon
(`poly`, an interval) or a multi-part polygon (`multi`, a list of
interval parts). -/
inductive Geom where
  | poly (lo hi : ℚ) : Geom
  | multi (parts : List (ℚ × ℚ)) : Geom
  deriving DecidableEq

/-- Is a geometry single-part (a plain `Polygon`, not a `MultiPolygon`)? -/
def isSinglePart : Geom → Bool
  | .poly _ _ => true
  | .multi _ => false

/-- Centroid of a geometry: midpoint of an interval; for a multi-part
geometry the measure-weighted mean of the part midpoints (shapely's
area-weighted centroid, one dimension down). -/
def centroidG : Geom → ℚ
  | .poly lo hi => (lo + hi) / 2
  | .multi parts =>
      let w := (parts.map (fun p => p.2 - p.1)).sum
      if w = 0 then 0
      else (parts.map (fun p => (p.2 - p.1) * ((p.1 + p.2) / 2))).sum / w

/-- `prepared_buffer.contains(point)`: strict interior containment. -/
def bufContains (b : Buf) (x : ℚ) : Bool :=
  decide (b.lo < x ∧ x < b.hi)

/-- Closed-interval overlap, the model of `intersects` on one part. -/
def intervalIntersects (b : Buf) (lo hi : ℚ) : Bool :=
  decide (lo ≤ b.hi ∧ b.lo ≤ hi)

/-- `prepared_buffer.intersects(geom)`: closed-set intersection test. -/
def bufIntersects (b : Buf) : Geom → Bool
  | .poly lo hi => intervalIntersects b lo hi
  | .multi parts => parts.any (fun p => intervalIntersects b p.1 p.2)

/-- `geom.is_valid`: an interval is valid when its endpoints are ordered. -/
def isValidG : Geom → Bool
  | .poly lo hi => decide (lo ≤ hi)
  | .multi parts => parts.all (fun p => decide (p.1 ≤ p.2))

/-- `shapely.validation.make_valid`: reorder the endpoints. -/
def make_valid : Geom → Geom
  | .poly lo hi => .poly (min lo hi) (max lo hi)
  | .multi parts => .multi (parts.map (fun p => (min p.1 p.2, max p.1 p.2)))

/-- Exact clip of one geometry against the (raw) buffer polygon, i.e.
set intersection: each part is clamped to the buffer interval.  A part
that misses the buffer becomes an inverted (empty) interval and a part
that only touches becomes a degenerate one; both are non-polygonal and
are removed by `extract_polygons` below, mirroring shapely returning
`Point`/`LineString` pieces for such intersections. -/
def clipGeom (b : Buf) : Geom → Geom
  | .poly lo hi => .poly (max lo b.lo) (min hi b.hi)
  | .multi parts => .multi (parts.map (fun p => (max p.1 b.lo, min p.2 b.hi)))

/-- `extract_polygons` from `clip_to_buffer`: keep only polygonal
(positive-measure) parts; `None` when nothing polygonal remains; a single
surviving part is returned as a plain polygon, several as a multi-part
geometry (the `unary_union` of disjoint polygonal parts). -/
def extract_polygons : Geom → Option Geom
  | .poly lo hi => if lo < hi then some (.poly lo hi) else none
  | .multi parts =>
      match parts.filter (fun p => decide (p.1 < p.2)) with
      | [] => none
      | [p] => some (.poly p.1 p.2)
      | ps => some (.multi ps)

/-- Vertex-level containment in the closed buffer: no vertex of the
geometry lies strictly outside `[b.lo, b.hi]`. -/
def geomWithinClosed (b : Buf) : Geom → Bool
  | .poly lo hi => decide (b.lo ≤ lo ∧ hi ≤ b.hi)
  | .multi parts => parts.all (fun p => decide (b.lo ≤ p.1 ∧ p.2 ≤ b.hi))

/-- One record of a layer: attribute values keyed by column name, plus a
geometry. -/
structure Feature where
  attrs : List (String × String)
  geom : Geom
  deriving DecidableEq

/-- A GeoDataFrame: its column names and its ordered records. -/
structure GeoDataFrame where
  columns : List String
  rows : List Feature
  deriving DecidableEq

/-- `gpd.GeoDataFrame()`, the empty frame. -/
def emptyGDF : GeoDataFrame := ⟨[], []⟩

/-- Attribute access `row[field]` (the empty string when absent; code
paths always guard with a column check first). -/
def getAttr (f : Feature) (field : String) : String :=
  (f.attrs.lookup field).getD ""

/-- `create_buffer_bbox`: the square bounding box around the point in the
projected system, and its reprojection through the (external) forward
transformer, which is passed in as a function. -/
def create_buffer_bbox (transform : ℚ × ℚ → ℚ × ℚ) (easting northing : ℚ)
    (radius : ℚ := 500) : (ℚ × ℚ × ℚ × ℚ) × (ℚ × ℚ × ℚ × ℚ) :=
  let bbox_bng := (easting - radius, northing - radius, easting + radius, northing + radius)
  let lo := transform (easting - radius, northing - radius)
  let hi := transform (easting + radius, northing + radius)
  (bbox_bng, (lo.1, lo.2, hi.1, hi.2))

/-- `create_buffer_polygon`: the circular buffer around the point, which
in the one-dimensional model is the interval of radius `radius`. -/
def create_buffer_polygon (easting : ℚ) (radius : ℚ := 500) : Buf :=
  ⟨easting - radius, easting + radius⟩

/-- `if self is invalid: make_valid` applied to one edge record
(`clip_to_buffer` repairs only invalid geometries). -/
def repair_feature (f : Feature) : Feature :=
  if isValidG f.geom then f else { f with geom := make_valid f.geom }

/-- One row of `gpd.clip(edge_intersects, buffer_polygon)`: the geometry
is intersected with the raw buffer polygon, attributes kept. -/
def clip_feature (b : Buf) (f : Feature) : Feature :=
  { f with geom := clipGeom b f.geom }

/-- Applying `extract_polygons` to a row and dropping it when no
polygonal part remains (`dropna(subset=["geometry"])`). -/
def extract_feature (f : Feature) : Option Feature :=
  (extract_polygons f.geom).map (fun g => { f with geom := g })

/-- Row-level body of `clip_to_buffer`: centroid fast path against the
prepared buffer `pb`, intersection test for the edge candidates, validity
repair, exact clip against the raw buffer `b`, polygonal extraction, and
concatenation of the fully-inside set with the clipped edge set. -/
def clip_rows (pb b : Buf) (rows : List Feature) : List Feature :=
  let fully_inside := rows.filter (fun f => bufContains pb (centroidG f.geom))
  let edge_candidates := rows.filter (fun f => !bufContains pb (centroidG f.geom))
  if edge_candidates.isEmpty then fully_inside
  else
    let edge_intersects := edge_candidates.filter (fun f => bufIntersects pb f.geom)
    if edge_intersects.isEmpty then fully_inside
    else
      fully_inside ++
        (((edge_intersects.map repair_feature).map (clip_feature b)).filterMap extract_feature)

/-- `clip_to_buffer(gdf, buffer_polygon, prepared_buffer=None)`.  An
empty frame returns immediately; otherwise the prepared buffer defaults
to `prep(buffer_polygon)` (the same geometry in this model) and the rows
are processed by `clip_rows`; the column set (CRS) is preserved. -/
def clip_to_buffer (gdf : GeoDataFrame) (buffer_polygon : Buf)
    (prepared_buffer : Option Buf := none) : GeoDataFrame :=
  if gdf.rows.isEmpty then gdf
  else
    let pb := prepared_buffer.getD buffer_polygon
    { gdf with rows := clip_rows pb buffer_polygon gdf.rows }

/-- One attempt's outcome for a layer download: the byte length of the
response body, whether the zip holds a `.shp` member, and the decoded
dataset. -/
structure EAResponse where
  contentLen : ℕ
  hasShp : Bool
  dataset : GeoDataFrame
  deriving DecidableEq

/-- The retry loop of `download_ea_layer` over the attempt numbers
`range(1, max_retries + 1)`: break on the first success; on failure sleep
`attempt * 3` (recorded in the second component) and retry while attempts
remain, re-raising the terminal failure once they run out. -/
def fetchLoop (attempts : ℕ → Except String EAResponse) :
    List ℕ → Except String EAResponse × List ℕ
  | [] => (.error "no attempts", [])
  | a :: rest =>
      match attempts a with
      | .ok r => (.ok r, [])
      | .error e =>
          match rest with
          | [] => (.error e, [])
          | _ :: _ =>
              let next := fetchLoop attempts rest
              (next.1, a * 3 :: next.2)

/-- Row explosion: a single-part record stays one record, a multi-part
record becomes one single-part record per part, attributes copied. -/
def explodeRow (f : Feature) : List Feature :=
  match f.geom with
  | .poly lo hi => [⟨f.attrs, .poly lo hi⟩]
  | .multi parts => parts.map (fun p => ⟨f.attrs, .poly p.1 p.2⟩)

/-- The rows produced by `gdf.explode(index_parts=False)`. -/
def explodeRows : List Feature → List Feature
  | [] => []
  | f :: t => explodeRow f ++ explodeRows t

/-- `gdf.explode(index_parts=False).reset_index(drop=True)`. -/
def explodeGDF (g : GeoDataFrame) : GeoDataFrame :=
  { g with rows := explodeRows g.rows }

/-- `download_ea_layer`: run the retry loop; a payload under 100 bytes or
a zip without a `.shp` member yields an empty frame (not an error); an
empty dataset is returned as-is; otherwise multi-part geometries are
exploded.  Returns the outcome plus the recorded sleeps.  (The CRS
reprojection to BNG is a no-op in the single-CRS model.) -/
def download_ea_layer (attempts : ℕ → Except String EAResponse)
    (max_retries : ℕ := 3) : Except String GeoDataFrame × List ℕ :=
  let r := fetchLoop attempts (List.range' 1 max_retries)
  match r.1 with
  | .error e => (.error e, r.2)
  | .ok resp =>
      if resp.contentLen < 100 then (.ok emptyGDF, r.2)
      else if !resp.hasShp then (.ok emptyGDF, r.2)
      else if resp.dataset.rows.isEmpty then (.ok resp.dataset, r.2)
      else (.ok (explodeGDF resp.dataset), r.2)

/-- One entry of `ROFSW_LAYERS`. -/
structure LayerConfig where
  ea_layer : String
  filter_field : Option String
  filter_value : Option String
  description : String
  filename : String
  deriving DecidableEq

def cfg_risk_band_High : LayerConfig :=
  ⟨"rofsw", some "risk_band", some "High",
   "High risk - >=3.3% (1 in 30) chance per year", "risk_band_High"⟩

def cfg_risk_band_Medium : LayerConfig :=
  ⟨"rofsw", some "risk_band", some "Medium",
   "Medium risk - <3.3% but >=1% (1 in 100) chance per year", "risk_band_Medium"⟩

def cfg_risk_band_Low : LayerConfig :=
  ⟨"rofsw", some "risk_band", some "Low",
   "Low risk - <1% but >=0.1% (1 in 1000) chance per year", "risk_band_Low"⟩

def cfg_depth_0_2m : LayerConfig :=
  ⟨"rofsw_0_2m_depth", none, none, "Flooding depth >= 0.2m", "depth_0_2m"⟩

def cfg_depth_0_3m : LayerConfig :=
  ⟨"rofsw_0_3m_depth", none, none, "Flooding depth >= 0.3m", "depth_0_3m"⟩

def cfg_depth_0_6m : LayerConfig :=
  ⟨"rofsw_0_6m_depth", none, none, "Flooding depth >= 0.6m", "depth_0_6m"⟩

def cfg_depth_0_9m : LayerConfig :=
  ⟨"rofsw_0_9m_depth", none, none, "Flooding depth >= 0.9m", "depth_0_9m"⟩

def cfg_depth_1_2m : LayerConfig :=
  ⟨"rofsw_1_2m_depth", none, none, "Flooding depth >= 1.2m", "depth_1_2m"⟩

/-- The `ROFSW_LAYERS` table in declaration order. -/
def ROFSW_LAYERS : List (String × LayerConfig) :=
  [("risk_band_High", cfg_risk_band_High),
   ("risk_band_Medium", cfg_risk_band_Medium),
   ("risk_band_Low", cfg_risk_band_Low),
   ("depth_0.2m", cfg_depth_0_2m),
   ("depth_0.3m", cfg_depth_0_3m),
   ("depth_0.6m", cfg_depth_0_6m),
   ("depth_0.9m", cfg_depth_0_9m),
   ("depth_1.2m", cfg_depth_1_2m)]

/-- Fallback for the (always successful) `ROFSW_LAYERS[...]` lookups. -/
def defaultConfig : LayerConfig := ⟨"", none, none, "", ""⟩

/-- One layer's slot in the result record. -/
structure LayerResult where
  features : ℕ
  status : String
  description : String
  error : Option String := none
  filename : Option String := none
  deriving DecidableEq

/-- The structured job result: the layers map (in insertion order), the
job error list, the files written into the job directory (hence the zip
archive contents), and the total feature count. -/
structure JobResults where
  layers : List (String × LayerResult)
  errors : List String
  files : List String
  total_features : ℕ
  deriving DecidableEq

/-- `save_as_shapefile` returns whether it wrote a file, i.e. whether the
frame was non-empty. -/
def save_as_shapefile (gdf : GeoDataFrame) : Bool :=
  !gdf.rows.isEmpty

/-- Python truthiness of `layer_config.get("filter_field")`. -/
def truthy : Option String → Bool
  | some s => !s.isEmpty
  | none => false

/-- `field in gdf.columns` where `field` may be `None`. -/
def fieldInColumns : Option String → List String → Bool
  | some f, cols => decide (f ∈ cols)
  | none, _ => false

/-- The inline risk-band filter of `process_postcode` (step 5): filter
the pre-clipped frame by case-insensitive attribute equality when the
filter field is among its columns, otherwise pass it through whole. -/
def riskFiltered (cfg : LayerConfig) (c : GeoDataFrame) : GeoDataFrame :=
  if fieldInColumns cfg.filter_field c.columns then
    { c with rows := c.rows.filter (fun r =>
        (getAttr r (cfg.filter_field.getD "")).toUpper ==
          (cfg.filter_value.getD "").toUpper) }
  else c

/-- The body of the risk-band loop (step 5 of `process_postcode`) for one
categorical layer: `no_data` when there is no pre-clipped source, else
filter the already-clipped frame (never re-clipping), save when
non-empty.  Returns the layer's result entry and the written file, if
any. -/
def riskBandEntry (cfg : LayerConfig) (rc : Option GeoDataFrame) :
    LayerResult × Option String :=
  match rc with
  | none =>
      ({ features := 0, status := "no_data", description := cfg.description }, none)
  | some c =>
      if c.rows.isEmpty then
        ({ features := 0, status := "no_data", description := cfg.description }, none)
      else
        let filtered := riskFiltered cfg c
        let saved := save_as_shapefile filtered
        ({ features := filtered.rows.length,
           status := if saved then "ok" else "empty_after_clip",
           description := cfg.description,
           filename := if saved then some (cfg.filename ++ ".shp") else none },
         if saved then some ("shapefiles/" ++ cfg.filename ++ ".shp") else none)

/-- `_process_single_layer`: `no_data` for an empty source, optional
attribute filter (skipped silently when the field is not a column),
`no_data` when nothing survives the filter, then clip against the buffer
and save.  Returns the result entry and the written file, if any.  The
geometry-engine exception handler is unreachable in the pure model, so
the `error` field is always `none`. -/
def _process_single_layer (cfg : LayerConfig) (raw_gdf : GeoDataFrame)
    (buffer_poly prepared : Buf) : LayerResult × Option String :=
  if raw_gdf.rows.isEmpty then
    ({ features := 0, status := "no_data", description := cfg.description }, none)
  else
    let gdf :=
      if truthy cfg.filter_field then
        if decide ((cfg.filter_field.getD "") ∈ raw_gdf.columns) then
          { raw_gdf with rows := raw_gdf.rows.filter (fun r =>
              (getAttr r (cfg.filter_field.getD "")).toUpper ==
                (cfg.filter_value.getD "").toUpper) }
        else raw_gdf
      else raw_gdf
    if gdf.rows.isEmpty then
      ({ features := 0, status := "no_data", description := cfg.description }, none)
    else
      let gdf_clipped := clip_to_buffer gdf buffer_poly (some prepared)
      let saved := save_as_shapefile gdf_clipped
      ({ features := gdf_clipped.rows.length,
         status := if saved then "ok" else "empty_after_clip",
         description := cfg.description,
         filename := if saved then some (cfg.filename ++ ".shp") else none },
       if saved then some ("shapefiles/" ++ cfg.filename ++ ".shp") else none)

/-- Python `int()` truncation toward zero on a rational. -/
def pyInt (q : ℚ) : ℤ :=
  if q < 0 then -((-q).floor) else q.floor

/-- The search-buffer layer's file stem, `search_buffer_{int(radius)}m`. -/
def searchBufferFileName (radius : ℚ) : String :=
  "search_buffer_" ++ toString (pyInt radius) ++ "m"

/-- Step 7's always-present `search_buffer` entry: the one-row buffer
frame is always saved, so the entry always reports one feature, `ok`. -/
def search_buffer_entry (postcode : String) (radius : ℚ) : LayerResult :=
  { features := 1, status := "ok",
    description := toString (pyInt radius) ++ "m buffer around " ++ postcode,
    filename := some (searchBufferFileName radius ++ ".shp") }

/-- Step 4's per-layer raw data: a failed download is caught and treated
as an empty frame (`raw_data[name] = gpd.GeoDataFrame()`); the failure is
only logged, not recorded in the job's error list. -/
def fetch_raw (attempts : String → ℕ → Except String EAResponse) :
    String → GeoDataFrame :=
  fun name =>
    match (download_ea_layer (attempts name)).1 with
    | .ok g => g
    | .error _ => emptyGDF

/-- Step 5's single clip of the `rofsw` source (`None` when that source
is empty), shared by the three categorical outputs. -/
def rofsw_clipped_of (raw_data : String → GeoDataFrame) (easting radius : ℚ) :
    Option GeoDataFrame :=
  let buffer_poly := create_buffer_polygon easting radius
  let g := raw_data "rofsw"
  if g.rows.isEmpty then none
  else some (clip_to_buffer g buffer_poly (some buffer_poly))

/-- The three risk-band results of step 5, in loop order. -/
def risk_results_of (raw_data : String → GeoDataFrame) (easting radius : ℚ) :
    List (String × (LayerResult × Option String)) :=
  ["risk_band_High", "risk_band_Medium", "risk_band_Low"].map (fun k =>
    (k, riskBandEntry ((ROFSW_LAYERS.lookup k).getD defaultConfig)
          (rofsw_clipped_of raw_data easting radius)))

/-- The sequential depth-layer results of step 6, in table order. -/
def depth_results_of (raw_data : String → GeoDataFrame) (easting radius : ℚ) :
    List (String × (LayerResult × Option String)) :=
  (ROFSW_LAYERS.filter (fun p => p.1.startsWith "depth_")).map (fun p =>
    (p.1, _process_single_layer p.2 (raw_data p.2.ea_layer)
            (create_buffer_polygon easting radius)
            (create_buffer_polygon easting radius)))

/-- The layers map of the result record: risk bands, then depth layers,
then the always-appended `search_buffer` entry. -/
def layers_of (postcode : String) (raw_data : String → GeoDataFrame)
    (easting radius : ℚ) : List (String × LayerResult) :=
  (risk_results_of raw_data easting radius).map (fun p => (p.1, p.2.1)) ++
    (depth_results_of raw_data easting radius).map (fun p => (p.1, p.2.1)) ++
    [("search_buffer", search_buffer_entry postcode radius)]

/-- The files written into the job directory (and hence zipped): the
saved layer shapefiles, the always-saved search-buffer shapefile, and the
metadata document. -/
def files_of (raw_data : String → GeoDataFrame) (easting radius : ℚ) :
    List String :=
  (risk_results_of raw_data easting radius).filterMap (fun p => p.2.2) ++
    (depth_results_of raw_data easting radius).filterMap (fun p => p.2.2) ++
    ["shapefiles/" ++ searchBufferFileName radius ++ ".shp", "metadata.json"]

/-- Steps 4-9 of `process_postcode` given the fetched raw data: derive
every layer, append the search-buffer entry, collect per-layer errors
(only `_process_single_layer` failures feed this list), package the
files, and total the feature counts over the finished layers map. -/
def process_with_raw (postcode : String) (raw_data : String → GeoDataFrame)
    (easting radius : ℚ) : JobResults :=
  { layers := layers_of postcode raw_data easting radius,
    errors := (depth_results_of raw_data easting radius).filterMap (fun p =>
      p.2.1.error.map (fun m => p.1 ++ ": " ++ m)),
    files := files_of raw_data easting radius,
    total_features :=
      ((layers_of postcode raw_data easting radius).map (fun p => p.2.features)).sum }

/-- `process_postcode`, with geocoding and the network supplied as
parameters: the six distinct remote layers are fetched (failures caught
per layer), then the layers are derived and packaged. -/
def process_postcode (postcode : String)
    (attempts : String → ℕ → Except String EAResponse)
    (easting radius : ℚ) : JobResults :=
  process_with_raw postcode (fetch_raw attempts) easting radius


/-! ### Helper lemmas about the clip algorithm -/

lemma weighted_sum_le_bound (B : ℚ) (l : List (ℚ × ℚ))
    (hw : ∀ p ∈ l, 0 < p.2 - p.1) (hm : ∀ p ∈ l, (p.1 + p.2) / 2 ≤ B) :
    (l.map (fun p => (p.2 - p.1) * ((p.1 + p.2) / 2))).sum ≤
      B * (l.map (fun p => p.2 - p.1)).sum := by
  induction l with
  | nil => simp
  | cons p t ih =>
      have hwp := hw p (List.mem_cons_self p t)
      have hmp := hm p (List.mem_cons_self p t)
      have iht := ih (fun q hq => hw q (List.mem_cons_of_mem _ hq))
        (fun q hq => hm q (List.mem_cons_of_mem _ hq))
      simp only [List.map_cons, List.sum_cons, mul_add]
      have h1 : (p.2 - p.1) * ((p.1 + p.2) / 2) ≤ (p.2 - p.1) * B :=
        mul_le_mul_of_nonneg_left hmp (le_of_lt hwp)
      have h2 : (p.2 - p.1) * B = B * (p.2 - p.1) := mul_comm _ _
      linarith

lemma bound_le_weighted_sum (A : ℚ) (l : List (ℚ × ℚ))
    (hw : ∀ p ∈ l, 0 < p.2 - p.1) (hm : ∀ p ∈ l, A ≤ (p.1 + p.2) / 2) :
    A * (l.map (fun p => p.2 - p.1)).sum ≤
      (l.map (fun p => (p.2 - p.1) * ((p.1 + p.2) / 2))).sum := by
  induction l with
  | nil => simp
  | cons p t ih =>
      have hwp := hw p (List.mem_cons_self p t)
      have hmp := hm p (List.mem_cons_self p t)
      have iht := ih (fun q hq => hw q (List.mem_cons_of_mem _ hq))
        (fun q hq => hm q (List.mem_cons_of_mem _ hq))
      simp only [List.map_cons, List.sum_cons, mul_add]
      have h1 : (p.2 - p.1) * A ≤ (p.2 - p.1) * ((p.1 + p.2) / 2) :=
        mul_le_mul_of_nonneg_left hmp (le_of_lt hwp)
      have h2 : (p.2 - p.1) * A = A * (p.2 - p.1) := mul_comm _ _
      linarith

lemma weighted_sum_lt_bound (B : ℚ) (p : ℚ × ℚ) (t : List (ℚ × ℚ))
    (hw : ∀ q ∈ p :: t, 0 < q.2 - q.1) (hm : ∀ q ∈ p :: t, (q.1 + q.2) / 2 < B) :
    ((p :: t).map (fun q => (q.2 - q.1) * ((q.1 + q.2) / 2))).sum <
      B * ((p :: t).map (fun q => q.2 - q.1)).sum := by
  have hwp := hw p (List.mem_cons_self p t)
  have hmp := hm p (List.mem_cons_self p t)
  have ht := weighted_sum_le_bound B t (fun q hq => hw q (List.mem_cons_of_mem _ hq))
    (fun q hq => le_of_lt (hm q (List.mem_cons_of_mem _ hq)))
  simp only [List.map_cons, List.sum_cons, mul_add]
  have h1 : (p.2 - p.1) * ((p.1 + p.2) / 2) < (p.2 - p.1) * B :=
    mul_lt_mul_of_pos_left hmp hwp
  have h2 : (p.2 - p.1) * B = B * (p.2 - p.1) := mul_comm _ _
  linarith

lemma bound_lt_weighted_sum (A : ℚ) (p : ℚ × ℚ) (t : List (ℚ × ℚ))
    (hw : ∀ q ∈ p :: t, 0 < q.2 - q.1) (hm : ∀ q ∈ p :: t, A < (q.1 + q.2) / 2) :
    A * ((p :: t).map (fun q => q.2 - q.1)).sum <
      ((p :: t).map (fun q => (q.2 - q.1) * ((q.1 + q.2) / 2))).sum := by
  have hwp := hw p (List.mem_cons_self p t)
  have hmp := hm p (List.mem_cons_self p t)
  have ht := bound_le_weighted_sum A t (fun q hq => hw q (List.mem_cons_of_mem _ hq))
    (fun q hq => le_of_lt (hm q (List.mem_cons_of_mem _ hq)))
  simp only [List.map_cons, List.sum_cons, mul_add]
  have h1 : (p.2 - p.1) * A < (p.2 - p.1) * ((p.1 + p.2) / 2) :=
    mul_lt_mul_of_pos_left hmp hwp
  have h2 : (p.2 - p.1) * A = A * (p.2 - p.1) := mul_comm _ _
  linarith

lemma centroid_multi_inside (b : Buf) (q : ℚ × ℚ) (t : List (ℚ × ℚ))
    (h : ∀ p ∈ q :: t, b.lo ≤ p.1 ∧ p.1 < p.2 ∧ p.2 ≤ b.hi) :
    bufContains b (centroidG (.multi (q :: t))) = true := by
  have hw : ∀ p ∈ q :: t, 0 < p.2 - p.1 := by
    intro p hp
    have := (h p hp).2.1
    linarith
  have hsum : 0 < (((q :: t).map (fun p => p.2 - p.1)).sum) := by
    apply List.sum_pos
    · intro x hx
      obtain ⟨p, hp, rfl⟩ := List.mem_map.mp hx
      exact hw p hp
    · simp
  have hmlt : ∀ p ∈ q :: t, (p.1 + p.2) / 2 < b.hi := by
    intro p hp
    obtain ⟨h1, h2, h3⟩ := h p hp
    linarith
  have hmgt : ∀ p ∈ q :: t, b.lo < (p.1 + p.2) / 2 := by
    intro p hp
    obtain ⟨h1, h2, h3⟩ := h p hp
    linarith
  have hne0 : ¬ ((((q :: t).map (fun p => p.2 - p.1)).sum) = 0) := by linarith
  simp only [centroidG, bufContains, if_neg hne0]
  apply decide_eq_true
  constructor
  · rw [lt_div_iff₀ hsum]
    exact bound_lt_weighted_sum b.lo q t hw hmgt
  · rw [div_lt_iff₀ hsum]
    exact weighted_sum_lt_bound b.hi q t hw hmlt

lemma clip_parts_bounds (b : Buf) (parts : List (ℚ × ℚ)) (r : ℚ × ℚ)
    (hr : r ∈ (parts.map (fun p => (max p.1 b.lo, min p.2 b.hi))).filter
        (fun p => decide (p.1 < p.2))) :
    b.lo ≤ r.1 ∧ r.1 < r.2 ∧ r.2 ≤ b.hi := by
  obtain ⟨hmem, hpos⟩ := List.mem_filter.mp hr
  obtain ⟨p, _, rfl⟩ := List.mem_map.mp hmem
  exact ⟨le_max_right _ _, of_decide_eq_true hpos, min_le_right _ _⟩

lemma extract_clip_mem (b : Buf) (gm g0 : Geom)
    (h : extract_polygons (clipGeom b gm) = some g0) :
    bufContains b (centroidG g0) = true ∧ geomWithinClosed b g0 = true := by
  cases gm with
  | poly lo hi =>
      simp only [clipGeom, extract_polygons] at h
      split at h
      · rename_i hlt
        obtain rfl : Geom.poly (max lo b.lo) (min hi b.hi) = g0 := Option.some.inj h
        have h1 : b.lo ≤ max lo b.lo := le_max_right _ _
        have h2 : min hi b.hi ≤ b.hi := min_le_right _ _
        simp only [bufContains, centroidG, geomWithinClosed]
        refine ⟨decide_eq_true ⟨by linarith, by linarith⟩, decide_eq_true ⟨h1, h2⟩⟩
      · exact absurd h (by simp)
  | multi parts =>
      simp only [clipGeom, extract_polygons] at h
      rcases hfe : (parts.map (fun p => (max p.1 b.lo, min p.2 b.hi))).filter
          (fun p => decide (p.1 < p.2)) with _ | ⟨q, _ | ⟨q2, qs⟩⟩ <;>
        rw [hfe] at h
      · exact absurd h (by simp)
      · obtain rfl : Geom.poly q.1 q.2 = g0 := Option.some.inj h
        have hq := clip_parts_bounds b parts q (hfe ▸ List.mem_singleton.mpr rfl)
        obtain ⟨h1, h2, h3⟩ := hq
        simp only [bufContains, centroidG, geomWithinClosed]
        refine ⟨decide_eq_true ⟨by linarith, by linarith⟩, decide_eq_true ⟨h1, h3⟩⟩
      · obtain rfl : Geom.multi (q :: q2 :: qs) = g0 := Option.some.inj h
        have hb : ∀ p ∈ q :: q2 :: qs, b.lo ≤ p.1 ∧ p.1 < p.2 ∧ p.2 ≤ b.hi := by
          intro p hp
          exact clip_parts_bounds b parts p (hfe ▸ hp)
        refine ⟨centroid_multi_inside b q (q2 :: qs) hb, ?_⟩
        simp only [geomWithinClosed, List.all_eq_true]
        intro p hp
        obtain ⟨h1, _, h3⟩ := hb p hp
        exact decide_eq_true ⟨h1, h3⟩

lemma extract_clip_feature_mem (b : Buf) (f g : Feature)
    (h : extract_feature (clip_feature b f) = some g) :
    bufContains b (centroidG g.geom) = true ∧ geomWithinClosed b g.geom = true := by
  simp only [extract_feature, clip_feature] at h
  obtain ⟨g0, hg0, hgg⟩ := Option.map_eq_some'.mp h
  subst hgg
  exact extract_clip_mem b f.geom g0 hg0

lemma mem_clip_rows (pb b : Buf) (rows : List Feature) (f : Feature)
    (h : f ∈ clip_rows pb b rows) :
    (f ∈ rows ∧ bufContains pb (centroidG f.geom) = true) ∨
      ∃ g, extract_feature (clip_feature b g) = some f := by
  simp only [clip_rows] at h
  split at h
  · exact Or.inl (List.mem_filter.mp h)
  · split at h
    · exact Or.inl (List.mem_filter.mp h)
    · rcases List.mem_append.mp h with h1 | h2
      · exact Or.inl (List.mem_filter.mp h1)
      · obtain ⟨a, ha, hae⟩ := List.mem_filterMap.mp h2
        obtain ⟨a0, _, rfl⟩ := List.mem_map.mp ha
        exact Or.inr ⟨a0, hae⟩

lemma clip_rows_id (pb b : Buf) (rows : List Feature)
    (h : ∀ f ∈ rows, bufContains pb (centroidG f.geom) = true) :
    clip_rows pb b rows = rows := by
  have h1 : rows.filter (fun f => bufContains pb (centroidG f.geom)) = rows :=
    List.filter_eq_self.mpr h
  have h2 : rows.filter (fun f => !bufContains pb (centroidG f.geom)) = [] :=
    List.filter_eq_nil_iff.mpr (fun f hf => by simp [h f hf])
  simp only [clip_rows, h1, h2, List.isEmpty_nil, if_true]

lemma clip_to_buffer_id (gdf : GeoDataFrame) (b : Buf)
    (h : ∀ f ∈ gdf.rows, bufContains b (centroidG f.geom) = true) :
    clip_to_buffer gdf b = gdf := by
  unfold clip_to_buffer
  split
  · rfl
  · simp only [Option.getD_none]
    rw [clip_rows_id b b gdf.rows h]

lemma clip_output_centroid_inside (gdf : GeoDataFrame) (b : Buf) (f : Feature)
    (h : f ∈ (clip_to_buffer gdf b).rows) :
    bufContains b (centroidG f.geom) = true := by
  unfold clip_to_buffer at h
  split at h
  · rename_i he
    rw [List.isEmpty_iff] at he
    rw [he] at h
    cases h
  · simp only [Option.getD_none] at h
    rcases mem_clip_rows b b gdf.rows f h with ⟨_, hin⟩ | ⟨g, hg⟩
    · exact hin
    · exact (extract_clip_feature_mem b g f hg).1

/-- C5: `clip_to_buffer` is idempotent: clipping its own output against
the same boundary returns the output unchanged.  Every surviving record
(fast-path records by the mask that selected them, clipped edge records
because a positive-measure subset of the buffer has its centroid strictly
inside it) has its centroid strictly inside the buffer, so the second
pass sends every record through the unmodified fast path. -/
theorem c5_clip_idempotent (gdf : GeoDataFrame) (b : Buf) :
    clip_to_buffer (clip_to_buffer gdf b) b = clip_to_buffer gdf b :=
  clip_to_buffer_id _ b (fun f hf => clip_output_centroid_inside gdf b f hf)

/-- C1 counterexample: a grid cell whose centroid is strictly inside the
buffer but whose far vertex is strictly outside passes through the
centroid fast path unmodified, so the clip output contains a geometry
with a vertex strictly outside the boundary, contradicting the claim.
Buffer `[0, 10]`, cell `[7, 12]`: centroid `9.5` is inside, the cell is
emitted as-is, and its vertex `12` lies strictly outside. -/
theorem c1_counterexample :
    (clip_to_buffer ⟨[], [⟨[], .poly 7 12⟩]⟩ ⟨0, 10⟩).rows = [⟨[], .poly 7 12⟩] ∧
      geomWithinClosed ⟨0, 10⟩ (.poly 7 12) = false := by
  with_unfolding_all decide

/-- C1 amended: every geometry emitted by `clip_to_buffer` either is an
input record passed through the centroid fast path (its centroid lies
strictly inside the boundary, but its vertices may extend beyond the
boundary), or comes from the exact edge clip and then has no vertex
strictly outside the boundary. -/
theorem c1_amended_fastpath_or_contained (gdf : GeoDataFrame) (b : Buf) (f : Feature)
    (h : f ∈ (clip_to_buffer gdf b).rows) :
    (f ∈ gdf.rows ∧ bufContains b (centroidG f.geom) = true) ∨
      geomWithinClosed b f.geom = true := by
  unfold clip_to_buffer at h
  split at h
  · rename_i he
    rw [List.isEmpty_iff] at he
    rw [he] at h
    cases h
  · simp only [Option.getD_none] at h
    rcases mem_clip_rows b b gdf.rows f h with hl | ⟨g, hg⟩
    · exact Or.inl hl
    · exact Or.inr (extract_clip_feature_mem b g f hg).2

/-- Witness for the amended C1 at a concrete input: the cell `[2, 3]`
inside buffer `[0, 10]` is emitted and satisfies the disjunction. -/
theorem c1_amended_witness :
    (⟨[], .poly 2 3⟩ : Feature) ∈ (clip_to_buffer ⟨[], [⟨[], .poly 2 3⟩]⟩ ⟨0, 10⟩).rows ∧
      (((⟨[], .poly 2 3⟩ : Feature) ∈ (⟨[], [⟨[], .poly 2 3⟩]⟩ : GeoDataFrame).rows ∧
          bufContains ⟨0, 10⟩ (centroidG (⟨[], Geom.poly 2 3⟩ : Feature).geom) = true) ∨
        geomWithinClosed ⟨0, 10⟩ (⟨[], Geom.poly 2 3⟩ : Feature).geom = true) :=
  ⟨by with_unfolding_all decide,
   c1_amended_fastpath_or_contained ⟨[], [⟨[], .poly 2 3⟩]⟩ ⟨0, 10⟩ _
     (by with_unfolding_all decide)⟩

/-! ### C8: the projected bounding rectangle -/

/-- C8: for every center and radius, the projected rectangle produced by
`create_buffer_bbox` is exactly
`[easting - r, northing - r, easting + r, northing + r]`. -/
theorem c8_bbox_exact (transform : ℚ × ℚ → ℚ × ℚ) (easting northing radius : ℚ)
    (_h : 0 < radius) :
    (create_buffer_bbox transform easting northing radius).1 =
      (easting - radius, northing - radius, easting + radius, northing + radius) := rfl

/-- Witness for C8 at the spec's concrete scenario: center
`(530000, 180000)` with radius `500` yields `(529500, 179500, 530500, 180500)`. -/
theorem c8_bbox_witness :
    (0 : ℚ) < 500 ∧
      (create_buffer_bbox id 530000 180000 500).1 = (529500, 179500, 530500, 180500) :=
  ⟨by norm_num,
   (c8_bbox_exact id 530000 180000 500 (by norm_num)).trans (by norm_num)⟩

/-! ### C6: retry protocol and small-payload handling of the fetch -/

/-- C6: the retry protocol of `download_ea_layer` with its default budget
of 3 attempts: (a) whenever the retry loop obtains a response whose
payload is under 100 bytes, the function returns an empty collection, not
an error; (b) when every attempt fails, the function consumes exactly the
three budgeted attempts, sleeping `attempt * 3` after each of the first
two failures, and surfaces the terminal (third attempt's) failure to the
caller. -/
theorem c6_small_payload_and_retry :
    (∀ (att : ℕ → Except String EAResponse) (resp : EAResponse) (sl : List ℕ),
        fetchLoop att (List.range' 1 3) = (.ok resp, sl) → resp.contentLen < 100 →
        download_ea_layer att = (.ok emptyGDF, sl)) ∧
    (∀ (att : ℕ → Except String EAResponse) (errs : ℕ → String),
        (∀ i, att i = .error (errs i)) →
        download_ea_layer att = (.error (errs 3), [1 * 3, 2 * 3])) := by
  constructor
  · intro att resp sl hloop hlen
    unfold download_ea_layer
    rw [hloop]
    simp [hlen]
  · intro att errs h
    unfold download_ea_layer
    have hr : List.range' 1 3 = [1, 2, 3] := rfl
    rw [hr]
    simp [fetchLoop, h 1, h 2, h 3]

def c6AttemptsOk : ℕ → Except String EAResponse := fun _ => .ok ⟨0, true, emptyGDF⟩

def c6AttemptsFail : ℕ → Except String EAResponse := fun _ => .error "boom"

/-- Witness for C6: a first-attempt success with a 0-byte payload yields
the empty collection with no sleeps; a permanent failure surfaces after
exactly the sleeps `[1*3, 2*3]`. -/
theorem c6_witness :
    (fetchLoop c6AttemptsOk (List.range' 1 3) = (.ok ⟨0, true, emptyGDF⟩, []) ∧
      (⟨0, true, emptyGDF⟩ : EAResponse).contentLen < 100 ∧
      download_ea_layer c6AttemptsOk = (.ok emptyGDF, [])) ∧
    ((∀ i, c6AttemptsFail i = .error ((fun _ : ℕ => "boom") i)) ∧
      download_ea_layer c6AttemptsFail = (.error ((fun _ : ℕ => "boom") 3), [1 * 3, 2 * 3])) :=
  ⟨⟨rfl, by norm_num,
    c6_small_payload_and_retry.1 c6AttemptsOk ⟨0, true, emptyGDF⟩ [] rfl (by norm_num)⟩,
   ⟨fun _ => rfl,
    c6_small_payload_and_retry.2 c6AttemptsFail (fun _ => "boom") (fun _ => rfl)⟩⟩

/-! ### C7: no multi-part geometry survives the download step -/

lemma explodeRows_single (rows : List Feature) (f : Feature)
    (h : f ∈ explodeRows rows) : isSinglePart f.geom = true := by
  induction rows with
  | nil => cases h
  | cons r t ih =>
      simp only [explodeRows] at h
      rcases List.mem_append.mp h with h1 | h2
      · cases hg : r.geom with
        | poly lo hi =>
            simp only [explodeRow, hg] at h1
            rcases List.mem_singleton.mp h1 with rfl
            rfl
        | multi parts =>
            simp only [explodeRow, hg] at h1
            obtain ⟨p, _, rfl⟩ := List.mem_map.mp h1
            rfl
      · exact ih h2

/-- C7: every record in a collection successfully returned by
`download_ea_layer` is a single-part polygon: multi-part geometries are
exploded into one record per constituent part before being returned, and
the early-return paths return empty collections. -/
theorem c7_download_single_part (att : ℕ → Except String EAResponse) (mr : ℕ)
    (g : GeoDataFrame) (sl : List ℕ)
    (h : download_ea_layer att mr = (.ok g, sl)) :
    ∀ f ∈ g.rows, isSinglePart f.geom = true := by
  intro f hf
  simp only [download_ea_layer] at h
  split at h
  · simp at h
  · split at h
    · simp only [Prod.mk.injEq, Except.ok.injEq] at h
      obtain ⟨h1, -⟩ := h
      subst h1
      simp [emptyGDF] at hf
    · split at h
      · simp only [Prod.mk.injEq, Except.ok.injEq] at h
        obtain ⟨h1, -⟩ := h
        subst h1
        simp [emptyGDF] at hf
      · split at h
        · rename_i hemp
          simp only [Prod.mk.injEq, Except.ok.injEq] at h
          obtain ⟨h1, -⟩ := h
          subst h1
          rw [List.isEmpty_iff] at hemp
          rw [hemp] at hf
          cases hf
        · simp only [Prod.mk.injEq, Except.ok.injEq] at h
          obtain ⟨h1, -⟩ := h
          subst h1
          simp only [explodeGDF] at hf
          exact explodeRows_single _ f hf

def c7Raw : GeoDataFrame :=
  ⟨["risk_band"], [⟨[("risk_band", "High")], .multi [(0, 2), (4, 6)]⟩]⟩

def c7Att : ℕ → Except String EAResponse := fun _ => .ok ⟨500, true, c7Raw⟩

def c7Out : GeoDataFrame :=
  ⟨["risk_band"],
   [⟨[("risk_band", "High")], .poly 0 2⟩, ⟨[("risk_band", "High")], .poly 4 6⟩]⟩

/-- Witness for C7: a download whose dataset holds one two-part
multi-polygon returns two single-part records. -/
theorem c7_witness :
    download_ea_layer c7Att 3 = (.ok c7Out, []) ∧
      ∀ f ∈ c7Out.rows, isSinglePart f.geom = true :=
  ⟨by with_unfolding_all rfl,
   c7_download_single_part c7Att 3 c7Out [] (by with_unfolding_all rfl)⟩

/-! ### Expansion lemmas for the orchestration stage -/

lemma risk_results_expand (raw : String → GeoDataFrame) (e r : ℚ) :
    risk_results_of raw e r =
      [("risk_band_High", riskBandEntry cfg_risk_band_High (rofsw_clipped_of raw e r)),
       ("risk_band_Medium", riskBandEntry cfg_risk_band_Medium (rofsw_clipped_of raw e r)),
       ("risk_band_Low", riskBandEntry cfg_risk_band_Low (rofsw_clipped_of raw e r))] := by
  with_unfolding_all rfl

lemma depth_results_expand (raw : String → GeoDataFrame) (e r : ℚ) :
    depth_results_of raw e r =
      [("depth_0.2m", _process_single_layer cfg_depth_0_2m (raw "rofsw_0_2m_depth")
          (create_buffer_polygon e r) (create_buffer_polygon e r)),
       ("depth_0.3m", _process_single_layer cfg_depth_0_3m (raw "rofsw_0_3m_depth")
          (create_buffer_polygon e r) (create_buffer_polygon e r)),
       ("depth_0.6m", _process_single_layer cfg_depth_0_6m (raw "rofsw_0_6m_depth")
          (create_buffer_polygon e r) (create_buffer_polygon e r)),
       ("depth_0.9m", _process_single_layer cfg_depth_0_9m (raw "rofsw_0_9m_depth")
          (create_buffer_polygon e r) (create_buffer_polygon e r)),
       ("depth_1.2m", _process_single_layer cfg_depth_1_2m (raw "rofsw_1_2m_depth")
          (create_buffer_polygon e r) (create_buffer_polygon e r))] := by
  with_unfolding_all rfl

lemma layers_of_expand (pc : String) (raw : String → GeoDataFrame) (e r : ℚ) :
    layers_of pc raw e r =
      [("risk_band_High", (riskBandEntry cfg_risk_band_High (rofsw_clipped_of raw e r)).1),
       ("risk_band_Medium", (riskBandEntry cfg_risk_band_Medium (rofsw_clipped_of raw e r)).1),
       ("risk_band_Low", (riskBandEntry cfg_risk_band_Low (rofsw_clipped_of raw e r)).1),
       ("depth_0.2m", (_process_single_layer cfg_depth_0_2m (raw "rofsw_0_2m_depth")
          (create_buffer_polygon e r) (create_buffer_polygon e r)).1),
       ("depth_0.3m", (_process_single_layer cfg_depth_0_3m (raw "rofsw_0_3m_depth")
          (create_buffer_polygon e r) (create_buffer_polygon e r)).1),
       ("depth_0.6m", (_process_single_layer cfg_depth_0_6m (raw "rofsw_0_6m_depth")
          (create_buffer_polygon e r) (create_buffer_polygon e r)).1),
       ("depth_0.9m", (_process_single_layer cfg_depth_0_9m (raw "rofsw_0_9m_depth")
          (create_buffer_polygon e r) (create_buffer_polygon e r)).1),
       ("depth_1.2m", (_process_single_layer cfg_depth_1_2m (raw "rofsw_1_2m_depth")
          (create_buffer_polygon e r) (create_buffer_polygon e r)).1),
       ("search_buffer", search_buffer_entry pc r)] := by
  with_unfolding_all rfl

/-! ### C9: the always-present search-buffer entry -/

/-- C9: regardless of the fetch outcomes, the finished layers map holds a
`search_buffer` entry with one feature and status `ok` (and the buffer
shapefile name), and `total_features` is exactly the sum of the feature
counts over the layers map — a sum that includes this entry, so the total
is at least 1. -/
theorem c9_search_buffer_entry (pc : String)
    (attempts : String → ℕ → Except String EAResponse) (e r : ℚ) :
    (process_postcode pc attempts e r).layers.lookup "search_buffer" =
        some (search_buffer_entry pc r) ∧
      search_buffer_entry pc r = { features := 1, status := "ok",
                                   description := toString (pyInt r) ++ "m buffer around " ++ pc,
                                   filename := some (searchBufferFileName r ++ ".shp") } ∧
      (process_postcode pc attempts e r).total_features =
        ((process_postcode pc attempts e r).layers.map (fun p => p.2.features)).sum ∧
      1 ≤ (process_postcode pc attempts e r).total_features := by
  refine ⟨?_, rfl, rfl, ?_⟩
  · show List.lookup "search_buffer" (layers_of pc (fetch_raw attempts) e r) =
      some (search_buffer_entry pc r)
    rw [layers_of_expand]
    with_unfolding_all rfl
  · show 1 ≤ ((layers_of pc (fetch_raw attempts) e r).map (fun p => p.2.features)).sum
    rw [layers_of_expand]
    simp only [List.map_cons, List.map_nil, List.sum_cons, List.sum_nil,
      search_buffer_entry]
    omega

/-! ### C2: the all-empty-fetch scenario -/

lemma download_small_all (att : ℕ → Except String EAResponse)
    (h : ∀ i, ∃ resp, att i = .ok resp ∧ resp.contentLen < 100) :
    (download_ea_layer att).1 = .ok emptyGDF := by
  obtain ⟨resp, hr, hlen⟩ := h 1
  unfold download_ea_layer
  have hr3 : List.range' 1 3 = [1, 2, 3] := rfl
  rw [hr3]
  simp [fetchLoop, hr, hlen]

lemma fetch_raw_small (attempts : String → ℕ → Except String EAResponse)
    (h : ∀ name i, ∃ resp, attempts name i = .ok resp ∧ resp.contentLen < 100) :
    fetch_raw attempts = fun _ => emptyGDF := by
  funext name
  unfold fetch_raw
  rw [download_small_all (attempts name) (h name)]

def c2Attempts : String → ℕ → Except String EAResponse :=
  fun _ _ => .ok ⟨50, true, emptyGDF⟩

/-- C2 counterexample: when every fetch returns a 50-byte, sub-threshold
payload (so every raw collection is empty), the finished job does not
have `no_data` on every layers entry and its total is not 0: the
always-appended `search_buffer` entry has status `ok` and one feature,
making `total_features = 1`. -/
theorem c2_counterexample :
    (process_postcode "AB1 2CD" c2Attempts 530000 500).total_features = 1 ∧
      ((process_postcode "AB1 2CD" c2Attempts 530000 500).layers.lookup
          "search_buffer").map (fun lr => lr.status) = some "ok" := by
  refine ⟨?_, ?_⟩ <;> with_unfolding_all rfl

/-- C2 corrected: when every remote fetch returns a sub-threshold payload
(every raw collection empty), every layers entry except the always-`ok`
`search_buffer` entry reports `no_data`, `total_features` is 1 (the
search-buffer feature, not 0), packaging succeeds, and the archive holds
exactly the search-buffer layer and the metadata document. -/
theorem c2_amended_all_tiny (pc : String)
    (attempts : String → ℕ → Except String EAResponse) (e r : ℚ)
    (h : ∀ name i, ∃ resp, attempts name i = .ok resp ∧ resp.contentLen < 100) :
    (process_postcode pc attempts e r).layers.map (fun p => (p.1, p.2.status)) =
        [("risk_band_High", "no_data"), ("risk_band_Medium", "no_data"),
         ("risk_band_Low", "no_data"), ("depth_0.2m", "no_data"),
         ("depth_0.3m", "no_data"), ("depth_0.6m", "no_data"),
         ("depth_0.9m", "no_data"), ("depth_1.2m", "no_data"),
         ("search_buffer", "ok")] ∧
      (process_postcode pc attempts e r).total_features = 1 ∧
      (process_postcode pc attempts e r).files =
        ["shapefiles/" ++ searchBufferFileName r ++ ".shp", "metadata.json"] ∧
      (process_postcode pc attempts e r).errors = [] := by
  have hraw := fetch_raw_small attempts h
  unfold process_postcode
  rw [hraw]
  refine ⟨?_, ?_, ?_, ?_⟩ <;> with_unfolding_all rfl

/-- Witness for the amended C2 at concrete inputs: all attempts return a
50-byte payload. -/
theorem c2_amended_witness :
    (∀ name i, ∃ resp, c2Attempts name i = .ok resp ∧ resp.contentLen < 100) ∧
      (process_postcode "AB1 2CD" c2Attempts 530000 500).layers.map
          (fun p => (p.1, p.2.status)) =
        [("risk_band_High", "no_data"), ("risk_band_Medium", "no_data"),
         ("risk_band_Low", "no_data"), ("depth_0.2m", "no_data"),
         ("depth_0.3m", "no_data"), ("depth_0.6m", "no_data"),
         ("depth_0.9m", "no_data"), ("depth_1.2m", "no_data"),
         ("search_buffer", "ok")] ∧
      (process_postcode "AB1 2CD" c2Attempts 530000 500).total_features = 1 :=
  ⟨fun _ _ => ⟨⟨50, true, emptyGDF⟩, rfl, by norm_num⟩,
   (c2_amended_all_tiny "AB1 2CD" c2Attempts 530000 500
      (fun _ _ => ⟨⟨50, true, emptyGDF⟩, rfl, by norm_num⟩)).1,
   (c2_amended_all_tiny "AB1 2CD" c2Attempts 530000 500
      (fun _ _ => ⟨⟨50, true, emptyGDF⟩, rfl, by norm_num⟩)).2.1⟩

/-! ### C10: a missing filter field is silently skipped -/

/-- C10: in both derive paths, a configured filter field that is not
among the columns of the fetched data is silently skipped, and every
record passes through unfiltered to clipping and output:
`_process_single_layer` behaves exactly as if no filter were configured,
and the risk-band filter step returns the pre-clipped frame unchanged. -/
theorem c10_missing_field_filter_skipped :
    (∀ (cfg : LayerConfig) (field : String) (raw : GeoDataFrame) (b p : Buf),
        cfg.filter_field = some field → field ∉ raw.columns →
        _process_single_layer cfg raw b p =
          _process_single_layer { cfg with filter_field := none } raw b p) ∧
    (∀ (cfg : LayerConfig) (field : String) (c : GeoDataFrame),
        cfg.filter_field = some field → field ∉ c.columns →
        riskFiltered cfg c = c) := by
  constructor
  · intro cfg field raw b p hf hnc
    unfold _process_single_layer
    rw [hf]
    have hd : decide (((some field).getD "") ∈ raw.columns) = false := by
      simp only [Option.getD_some]
      exact decide_eq_false hnc
    rw [hd]
    simp [truthy]
  · intro cfg field c hf hnc
    unfold riskFiltered
    rw [hf]
    simp only [fieldInColumns]
    simp [decide_eq_false hnc]

def c10Cfg : LayerConfig := ⟨"rofsw", some "risk_band", some "High", "d", "f"⟩

def c10Gdf : GeoDataFrame := ⟨["depth"], [⟨[("depth", "2")], .poly 1 2⟩]⟩

/-- Witness for C10: a frame whose only column is `depth` passes through
both filter sites untouched when the configured field is `risk_band`. -/
theorem c10_witness :
    (c10Cfg.filter_field = some "risk_band" ∧ "risk_band" ∉ c10Gdf.columns ∧
      _process_single_layer c10Cfg c10Gdf ⟨0, 10⟩ ⟨0, 10⟩ =
        _process_single_layer { c10Cfg with filter_field := none } c10Gdf ⟨0, 10⟩ ⟨0, 10⟩) ∧
      riskFiltered c10Cfg c10Gdf = c10Gdf :=
  ⟨⟨rfl, by with_unfolding_all decide,
    c10_missing_field_filter_skipped.1 c10Cfg "risk_band" c10Gdf ⟨0, 10⟩ ⟨0, 10⟩ rfl
      (by with_unfolding_all decide)⟩,
   c10_missing_field_filter_skipped.2 c10Cfg "risk_band" c10Gdf rfl
     (by with_unfolding_all decide)⟩

/-! ### C4: the categorical partition -/

lemma filter_length_partition (p1 p2 p3 : Feature → Bool) (l : List Feature)
    (h : ∀ f ∈ l, (p1 f).toNat + (p2 f).toNat + (p3 f).toNat = 1) :
    (l.filter p1).length + (l.filter p2).length + (l.filter p3).length = l.length := by
  induction l with
  | nil => simp
  | cons a t ih =>
      have ha := h a (List.mem_cons_self a t)
      have iht := ih (fun x hx => h x (List.mem_cons_of_mem _ hx))
      simp only [List.filter_cons]
      cases h1 : p1 a <;> cases h2 : p2 a <;> cases h3 : p3 a <;>
        rw [h1, h2, h3] at ha <;> simp at ha ⊢ <;> omega

/-- C4: the categorical derive path is a disjoint, exhaustive partition:
for any pre-clipped source frame carrying the `risk_band` column whose
every record matches exactly one of the three case-insensitive filter
values, the three categorical outputs (produced by `riskBandEntry`, which
only attribute-filters the already-clipped frame and never re-clips) have
feature counts summing to the frame's record count; and inside
`process_postcode` the three risk-band entries are exactly these filters
applied to the single shared `rofsw` clip. -/
theorem c4_partition_and_no_reclip :
    (∀ g : GeoDataFrame, "risk_band" ∈ g.columns →
      (∀ f ∈ g.rows,
          ((getAttr f "risk_band").toUpper == "High".toUpper).toNat +
            ((getAttr f "risk_band").toUpper == "Medium".toUpper).toNat +
            ((getAttr f "risk_band").toUpper == "Low".toUpper).toNat = 1) →
      (riskBandEntry cfg_risk_band_High (some g)).1.features +
          (riskBandEntry cfg_risk_band_Medium (some g)).1.features +
          (riskBandEntry cfg_risk_band_Low (some g)).1.features = g.rows.length) ∧
    (∀ (pc : String) (attempts : String → ℕ → Except String EAResponse) (e r : ℚ),
      (process_postcode pc attempts e r).layers.lookup "risk_band_High" =
          some (riskBandEntry cfg_risk_band_High
            (rofsw_clipped_of (fetch_raw attempts) e r)).1 ∧
        (process_postcode pc attempts e r).layers.lookup "risk_band_Medium" =
          some (riskBandEntry cfg_risk_band_Medium
            (rofsw_clipped_of (fetch_raw attempts) e r)).1 ∧
        (process_postcode pc attempts e r).layers.lookup "risk_band_Low" =
          some (riskBandEntry cfg_risk_band_Low
            (rofsw_clipped_of (fetch_raw attempts) e r)).1) := by
  constructor
  · intro g hcol hone
    have hfc : fieldInColumns (some "risk_band") g.columns = true := by
      simp only [fieldInColumns]
      exact decide_eq_true hcol
    by_cases hemp : g.rows.isEmpty
    · rw [List.isEmpty_iff] at hemp
      simp [riskBandEntry, hemp]
    · simp only [riskBandEntry, hemp, if_false, riskFiltered, cfg_risk_band_High,
        cfg_risk_band_Medium, cfg_risk_band_Low, hfc, if_true, Bool.false_eq_true,
        Option.getD_some]
      exact filter_length_partition _ _ _ g.rows hone
  · intro pc attempts e r
    refine ⟨?_, ?_, ?_⟩ <;>
      · show List.lookup _ (layers_of pc (fetch_raw attempts) e r) = _
        rw [layers_of_expand]
        with_unfolding_all rfl

def c4Gdf : GeoDataFrame :=
  ⟨["risk_band"],
   [⟨[("risk_band", "High")], .poly 0 1⟩,
    ⟨[("risk_band", "high")], .poly 1 2⟩,
    ⟨[("risk_band", "MEDIUM")], .poly 2 3⟩,
    ⟨[("risk_band", "Low")], .poly 3 4⟩]⟩

def c4Att : String → ℕ → Except String EAResponse :=
  fun _ _ => .ok ⟨200, true, c4Gdf⟩

/-- Witness for C4: a four-record pre-clipped frame with case-varied
band values (`High`, `high`, `MEDIUM`, `Low`) splits 2 + 1 + 1 = 4. -/
theorem c4_witness :
    ("risk_band" ∈ c4Gdf.columns ∧
      (∀ f ∈ c4Gdf.rows,
          ((getAttr f "risk_band").toUpper == "High".toUpper).toNat +
            ((getAttr f "risk_band").toUpper == "Medium".toUpper).toNat +
            ((getAttr f "risk_band").toUpper == "Low".toUpper).toNat = 1) ∧
      (riskBandEntry cfg_risk_band_High (some c4Gdf)).1.features +
          (riskBandEntry cfg_risk_band_Medium (some c4Gdf)).1.features +
          (riskBandEntry cfg_risk_band_Low (some c4Gdf)).1.features =
        c4Gdf.rows.length) ∧
      (process_postcode "X" c4Att 0 500).layers.lookup "risk_band_High" =
        some (riskBandEntry cfg_risk_band_High
          (rofsw_clipped_of (fetch_raw c4Att) 0 500)).1 :=
  ⟨⟨by with_unfolding_all decide, by with_unfolding_all decide,
    c4_partition_and_no_reclip.1 c4Gdf (by with_unfolding_all decide)
      (by with_unfolding_all decide)⟩,
   (c4_partition_and_no_reclip.2 "X" c4Att 0 500).1⟩

/-! ### C3: an isolated fetch failure -/

lemma single_layer_error_none (cfg : LayerConfig) (g : GeoDataFrame) (b p : Buf) :
    (_process_single_layer cfg g b p).1.error = none := by
  simp only [_process_single_layer]
  repeat' split
  all_goals rfl

lemma process_errors_nil (pc : String) (raw : String → GeoDataFrame) (e r : ℚ) :
    (process_with_raw pc raw e r).errors = [] := by
  show (depth_results_of raw e r).filterMap
      (fun p => p.2.1.error.map (fun m => p.1 ++ ": " ++ m)) = []
  rw [depth_results_expand]
  simp [single_layer_error_none]

lemma download_all_fail (att : ℕ → Except String EAResponse)
    (h : ∀ i, ∃ msg, att i = .error msg) :
    ∃ msg, (download_ea_layer att).1 = .error msg := by
  obtain ⟨m1, h1⟩ := h 1
  obtain ⟨m2, h2⟩ := h 2
  obtain ⟨m3, h3⟩ := h 3
  refine ⟨m3, ?_⟩
  unfold download_ea_layer
  have hr3 : List.range' 1 3 = [1, 2, 3] := rfl
  rw [hr3]
  simp [fetchLoop, h1, h2, h3]

lemma fetch_raw_fail (attempts : String → ℕ → Except String EAResponse) (name : String)
    (h : ∀ i, ∃ msg, attempts name i = .error msg) :
    fetch_raw attempts name = emptyGDF := by
  obtain ⟨msg, hm⟩ := download_all_fail (attempts name) h
  unfold fetch_raw
  rw [hm]

lemma lookup_shift (k : String) (A B : List (String × LayerResult))
    (x1 : String) (x2 y2 : LayerResult) (hk : (k == x1) = false) :
    List.lookup k (A ++ (x1, x2) :: B) = List.lookup k (A ++ (x1, y2) :: B) := by
  induction A with
  | nil => simp only [List.nil_append, List.lookup, hk]
  | cons a t ih =>
      obtain ⟨a1, a2⟩ := a
      simp only [List.cons_append, List.lookup]
      split
      · rfl
      · exact ih

def c3Data : GeoDataFrame :=
  ⟨["risk_band"], [⟨[("risk_band", "High")], .poly 529990 529992⟩]⟩

def c3FailAtt : String → ℕ → Except String EAResponse :=
  fun name _ =>
    if name == "rofsw_0_2m_depth" then .error "connection reset"
    else .ok ⟨5000, true, c3Data⟩

def c3OkAtt : String → ℕ → Except String EAResponse :=
  fun _ _ => .ok ⟨5000, true, c3Data⟩

/-- C3 counterexample: with the `rofsw_0_2m_depth` fetch failing all its
retries and the five other remote layers succeeding with data, the job
completes, the failed layer reports `no_data`, a sibling layer reports
`ok` — but the JobResult's error list is empty.  The claim's "includes
one error entry" is false: a fetch failure is only logged and its raw
data replaced by an empty frame; nothing is appended to the error list. -/
theorem c3_counterexample :
    (download_ea_layer (c3FailAtt "rofsw_0_2m_depth")).1 = .error "connection reset" ∧
      (process_postcode "X" c3FailAtt 530000 500).errors = [] ∧
      ((process_postcode "X" c3FailAtt 530000 500).layers.lookup "depth_0.2m").map
        (fun lr => lr.status) = some "no_data" ∧
      ((process_postcode "X" c3FailAtt 530000 500).layers.lookup "depth_0.3m").map
        (fun lr => lr.status) = some "ok" := by
  refine ⟨?_, ?_, ?_, ?_⟩ <;> with_unfolding_all rfl

/-- C3 corrected: when the `rofsw_0_2m_depth` fetch fails every attempt,
the job still completes: that layer reports `no_data` (its raw data is
treated as empty), every other layer's entry is exactly what it is under
any fetch outcomes that agree on the other five identifiers (the failure
aborts no other fetch or derivation) — but, contrary to the claim, the
JobResult's error list stays empty: the fetch failure is only logged. -/
theorem c3_amended_isolated_failure (pc : String)
    (att att2 : String → ℕ → Except String EAResponse) (e r : ℚ)
    (hfail : ∀ i, ∃ msg, att "rofsw_0_2m_depth" i = .error msg)
    (hagree : ∀ name, name ≠ "rofsw_0_2m_depth" → att name = att2 name) :
    (process_postcode pc att e r).layers.lookup "depth_0.2m" =
        some { features := 0, status := "no_data",
               description := cfg_depth_0_2m.description } ∧
      (process_postcode pc att e r).errors = [] ∧
      ∀ k, k ≠ "depth_0.2m" →
        (process_postcode pc att e r).layers.lookup k =
          (process_postcode pc att2 e r).layers.lookup k := by
  have hko := fetch_raw_fail att "rofsw_0_2m_depth" hfail
  have hg : ∀ name, name ≠ "rofsw_0_2m_depth" →
      fetch_raw att name = fetch_raw att2 name := by
    intro name hn
    unfold fetch_raw
    rw [hagree name hn]
  refine ⟨?_, process_errors_nil pc (fetch_raw att) e r, ?_⟩
  · have h1 : List.lookup "depth_0.2m" (layers_of pc (fetch_raw att) e r) =
        some ((_process_single_layer cfg_depth_0_2m (fetch_raw att "rofsw_0_2m_depth")
          (create_buffer_polygon e r) (create_buffer_polygon e r)).1) := by
      rw [layers_of_expand]
      with_unfolding_all rfl
    show List.lookup "depth_0.2m" (layers_of pc (fetch_raw att) e r) = _
    rw [h1, hko]
    with_unfolding_all rfl
  · intro k hk
    show List.lookup k (layers_of pc (fetch_raw att) e r) =
      List.lookup k (layers_of pc (fetch_raw att2) e r)
    have hrc : rofsw_clipped_of (fetch_raw att) e r =
        rofsw_clipped_of (fetch_raw att2) e r := by
      unfold rofsw_clipped_of
      rw [hg "rofsw" (by simp)]
    rw [layers_of_expand pc (fetch_raw att) e r, layers_of_expand pc (fetch_raw att2) e r,
      hrc, hg "rofsw_0_3m_depth" (by simp), hg "rofsw_0_6m_depth" (by simp),
      hg "rofsw_0_9m_depth" (by simp), hg "rofsw_1_2m_depth" (by simp)]
    exact lookup_shift k
      [("risk_band_High", (riskBandEntry cfg_risk_band_High
          (rofsw_clipped_of (fetch_raw att2) e r)).1),
       ("risk_band_Medium", (riskBandEntry cfg_risk_band_Medium
          (rofsw_clipped_of (fetch_raw att2) e r)).1),
       ("risk_band_Low", (riskBandEntry cfg_risk_band_Low
          (rofsw_clipped_of (fetch_raw att2) e r)).1)]
      [("depth_0.3m", (_process_single_layer cfg_depth_0_3m (fetch_raw att2 "rofsw_0_3m_depth")
          (create_buffer_polygon e r) (create_buffer_polygon e r)).1),
       ("depth_0.6m", (_process_single_layer cfg_depth_0_6m (fetch_raw att2 "rofsw_0_6m_depth")
          (create_buffer_polygon e r) (create_buffer_polygon e r)).1),
       ("depth_0.9m", (_process_single_layer cfg_depth_0_9m (fetch_raw att2 "rofsw_0_9m_depth")
          (create_buffer_polygon e r) (create_buffer_polygon e r)).1),
       ("depth_1.2m", (_process_single_layer cfg_depth_1_2m (fetch_raw att2 "rofsw_1_2m_depth")
          (create_buffer_polygon e r) (create_buffer_polygon e r)).1),
       ("search_buffer", search_buffer_entry pc r)]
      "depth_0.2m"
      ((_process_single_layer cfg_depth_0_2m (fetch_raw att "rofsw_0_2m_depth")
          (create_buffer_polygon e r) (create_buffer_polygon e r)).1)
      ((_process_single_layer cfg_depth_0_2m (fetch_raw att2 "rofsw_0_2m_depth")
          (create_buffer_polygon e r) (create_buffer_polygon e r)).1)
      (beq_eq_false_iff_ne.mpr hk)

/-- Witness for the amended C3 at concrete inputs: `c3FailAtt` fails the
`rofsw_0_2m_depth` fetch permanently and agrees with `c3OkAtt` on every
other identifier. -/
theorem c3_amended_witness :
    (process_postcode "X" c3FailAtt 530000 500).layers.lookup "depth_0.2m" =
        some { features := 0, status := "no_data",
               description := cfg_depth_0_2m.description } ∧
      (process_postcode "X" c3FailAtt 530000 500).errors = [] ∧
      (process_postcode "X" c3FailAtt 530000 500).layers.lookup "depth_0.3m" =
        (process_postcode "X" c3OkAtt 530000 500).layers.lookup "depth_0.3m" := by
  have h := c3_amended_isolated_failure "X" c3FailAtt c3OkAtt 530000 500
    (fun i => ⟨"connection reset", by with_unfolding_all rfl⟩)
    (fun name hn => funext fun i => by
      have hb : (name == "rofsw_0_2m_depth") = false := beq_eq_false_iff_ne.mpr hn
      simp [c3FailAtt, c3OkAtt, hb])
  exact ⟨h.1, h.2.1, h.2.2 "depth_0.3m" (by simp)⟩
end FloodHapi
